import Mathlib

/-!
Verification development for the attendance-link flow of the `webs`
dashboard (pages/CourseLinkPage.jsx, pages/SettingsPage.jsx, App routes).

The JavaScript source is shallowly embedded: JS numbers are modelled as
rationals, JS object literals as an explicit JSON value type, nullable
values as Option, and the asynchronous effect/subscription lifecycle as
explicit state transitions driven by action lists.
-/

namespace Webs

/-- JSON values, as produced by the JS object literals of the source.
Numbers are modelled as rationals (JS semester values are integers,
coordinates are finite decimals). -/
inductive Json where
  | null : Json
  | num (q : ℚ) : Json
  | str (s : String) : Json
  | obj (fields : List (String × Json)) : Json
deriving Repr

/-- Rendering of a JSON number. The payloads under study only ever
serialize integral numbers (a parsed semester); non-integral rationals
are given a best-effort rendering that no claim depends on. -/
def jsNumString (q : ℚ) : String :=
  if q.den = 1 then toString q.num else toString q

mutual

/-- Model of JSON.stringify on the embedded JSON values (string escaping
is elided: every string the flow serializes is escape-free). -/
def Json.serialize : Json → String
  | .null => "null"
  | .num q => jsNumString q
  | .str s => "\"" ++ s ++ "\""
  | .obj fs => "\x7b" ++ Json.serializeFields fs ++ "\x7d"

/-- Comma-separated key:value renderings of an object's fields. -/
def Json.serializeFields : List (String × Json) → String
  | [] => ""
  | [(k, v)] => "\"" ++ k ++ "\":" ++ Json.serialize v
  | (k, v) :: p :: rest =>
      "\"" ++ k ++ "\":" ++ Json.serialize v ++ "," ++ Json.serializeFields (p :: rest)

end

/-- Field lookup in a JSON object (first binding wins, as in a JS object
literal with distinct keys). -/
def Json.getField : Json → String → Option Json
  | .obj fs, k => (fs.find? (fun p => p.1 = k)).map Prod.snd
  | _, _ => none

/-- Calendar/clock fields of an instant, the data `Date.prototype.toISOString`
prints. The generation time of a token is a value of this type. -/
structure DateParts where
  year : Nat
  month : Nat
  day : Nat
  hour : Nat
  minute : Nat
  second : Nat
  ms : Nat
deriving Repr, DecidableEq

/-- Modelled from the spec: JS `new Date().toISOString()`, which prints
the ISO-8601 form YYYY-MM-DDTHH:mm:ss.sssZ (digits computed
positionally; on the valid field ranges this agrees with the decimal
zero-padded rendering the host produces). -/
def toISOString (d : DateParts) : String :=
  String.mk
    [Nat.digitChar (d.year / 1000 % 10), Nat.digitChar (d.year / 100 % 10),
     Nat.digitChar (d.year / 10 % 10), Nat.digitChar (d.year % 10), '-',
     Nat.digitChar (d.month / 10 % 10), Nat.digitChar (d.month % 10), '-',
     Nat.digitChar (d.day / 10 % 10), Nat.digitChar (d.day % 10), 'T',
     Nat.digitChar (d.hour / 10 % 10), Nat.digitChar (d.hour % 10), ':',
     Nat.digitChar (d.minute / 10 % 10), Nat.digitChar (d.minute % 10), ':',
     Nat.digitChar (d.second / 10 % 10), Nat.digitChar (d.second % 10), '.',
     Nat.digitChar (d.ms / 100 % 10), Nat.digitChar (d.ms / 10 % 10),
     Nat.digitChar (d.ms % 10), 'Z']

/-- Recognizer for the 24-character ISO-8601 timestamp layout
YYYY-MM-DDTHH:mm:ss.sssZ. -/
def isISO8601 (s : String) : Bool :=
  match s.toList with
  | [y1, y2, y3, y4, '-', m1, m2, '-', d1, d2, 'T',
     h1, h2, ':', n1, n2, ':', s1, s2, '.', f1, f2, f3, 'Z'] =>
      [y1, y2, y3, y4, m1, m2, d1, d2, h1, h2, n1, n2, s1, s2, f1, f2, f3].all Char.isDigit
  | _ => false

/-- Value of a maximal leading digit run, or none when there is no
leading digit (JS NaN). -/
def jsDigitsVal (cs : List Char) : Option Nat :=
  let ds := cs.takeWhile Char.isDigit
  if ds.isEmpty then none
  else some (ds.foldl (fun a c => a * 10 + (c.toNat - 48)) 0)

/-- Model of JS `parseInt(s, 10)`: skip leading whitespace, take an
optional sign and then the maximal digit prefix, ignore the rest;
`none` models NaN (no digit found). -/
def jsParseInt (s : String) : Option Int :=
  match s.toList.dropWhile Char.isWhitespace with
  | '-' :: rest => (jsDigitsVal rest).map (fun n => -(n : Int))
  | '+' :: rest => (jsDigitsVal rest).map (fun n => (n : Int))
  | cs => (jsDigitsVal cs).map (fun n => (n : Int))

/-! ## Data model (CourseLinkPage.jsx) -/

/-- A course document as used by CourseLinkPage: Appwrite document id
(field named `$id` in the source), program name, link-activation flag. -/
structure Course where
  id : String
  Programme : String
  LinkStatus : String
deriving Repr, DecidableEq

/-- A location document of the location collection: document id,
creation time (`$createdAt`, modelled as a Nat instant), coordinates. -/
structure LocationDoc where
  id : String
  createdAt : Nat
  Latitude : ℚ
  Longitude : ℚ
deriving Repr, DecidableEq

/-- The viewer's `location` state: a pair of nullable coordinates,
initialized to `latitude: null, longitude: null` in the source. -/
structure LocState where
  latitude : Option ℚ
  longitude : Option ℚ
deriving Repr, DecidableEq

/-- Initial `location` state of the component. -/
def initialLocState : LocState := ⟨none, none⟩

/-- JS truthiness of a nullable numeric coordinate: null and 0 are
falsy, every other number is truthy. -/
def truthy : Option ℚ → Bool
  | none => false
  | some x => x != 0

/-! ## Token generator (CourseLinkPage.jsx lines 129-136) -/

/-- The JSON object built by the `qrValue` expression when the course
is present and its LinkStatus is the string Active: keys courseId,
semester (parseInt of the route parameter; NaN serializes as null),
dateTime (toISOString of the generation instant), location (spread of
the location state when both coordinates are truthy, else null). -/
def qrJson (course : Option Course) (semester : String) (now : DateParts)
    (loc : LocState) : Option Json :=
  match course with
  | none => none
  | some c =>
    if c.LinkStatus = "Active" then
      some (Json.obj
        [("courseId", Json.str c.id),
         ("semester",
            match jsParseInt semester with
            | some k => Json.num (k : ℚ)
            | none => Json.null),
         ("dateTime", Json.str (toISOString now)),
         ("location",
            if truthy loc.latitude && truthy loc.longitude then
              match loc.latitude, loc.longitude with
              | some a, some b =>
                  Json.obj [("latitude", Json.num a), ("longitude", Json.num b)]
              | _, _ => Json.null
            else Json.null)])
    else none

/-- The `qrValue` string: the serialized payload when the course is
present and Active, and the empty string otherwise. -/
def qrValue (course : Option Course) (semester : String) (now : DateParts)
    (loc : LocState) : String :=
  match qrJson course semester now loc with
  | some j => j.serialize
  | none => ""

/-! ## Location store query (CourseLinkPage.jsx lines 33-40) -/

/-- One comparison step of the descending-by-creation-time selection:
keep the later-created of the two documents (the earlier-listed one on
ties). -/
def latestStep (best x : LocationDoc) : LocationDoc :=
  if best.createdAt < x.createdAt then x else best

/-- Modelled from the spec: the vendor query of `fetchLatestLocation`
(order descending by creation time, limit 1) returns a sample with
maximal creation time, the earliest-listed one on ties; returns null
(`none`) when the collection is empty. -/
def fetchLatestLocation : List LocationDoc → Option LocationDoc
  | [] => none
  | d :: ds => some (ds.foldl latestStep d)

/-! ## Session state and initial load (CourseLinkPage.jsx lines 45-126) -/

/-- The component state of CourseLinkPage that the claims observe. -/
structure SessionState where
  course : Option Course
  location : LocState
  loading : Bool
  error : Option String
deriving Repr, DecidableEq

/-- Initial component state: no course, null coordinates, loading. -/
def initialState : SessionState :=
  { course := none, location := initialLocState, loading := true, error := none }

/-- Error message set when no course matches the programme parameter. -/
def notFoundMessage : String := "The requested course could not be found."

/-- Error message set by the catch handler of initializeData. -/
def fetchFailedMessage : String := "Failed to load course data. Please try again later."

/-- Model of JS String.prototype.toLowerCase: lowercase each character
(the program names under study are ASCII). -/
def jsToLower (s : String) : String :=
  String.mk (s.toList.map Char.toLower)

/-- Course lookup of initializeData: the URL-decoded programme segment
and each course's Programme are compared lowercased. -/
def findCourse (courses : List Course) (decodedProgramme : String) : Option Course :=
  courses.find? (fun c => jsToLower c.Programme = jsToLower decodedProgramme)

/-- Outcome of the two initial fetches: either both resolve (course
list and latest-location query result) or the load fails and the catch
handler runs. -/
inductive FetchOutcome where
  | ok (courses : List Course) (latest : Option LocationDoc)
  | failure
deriving Repr

/-- State transition of `initializeData` (synchronous view of the async
body): on success, find the course by programme (setting the course or
the not-found error) and install the latest location when one exists;
on failure the catch handler records the fetch-failure message; the
finally clause clears loading on both paths. -/
def initializeData (outcome : FetchOutcome) (decodedProgramme : String)
    (st : SessionState) : SessionState :=
  match outcome with
  | .failure => { st with error := some fetchFailedMessage, loading := false }
  | .ok courses latest =>
      let st1 :=
        match findCourse courses decodedProgramme with
        | some c => { st with course := some c }
        | none => { st with error := some notFoundMessage }
      let st2 :=
        match latest with
        | some l =>
            { st1 with location := ⟨some l.Latitude, some l.Longitude⟩ }
        | none => st1
      { st2 with loading := false }

/-! ## Render (CourseLinkPage.jsx lines 138-230) -/

/-- The four mutually exclusive render outcomes of the component: the
loading spinner, the terminal error card with its message, the null
render, and the course page carrying the QR value iff the link is
active (the QRCode element is mounted only under isLinkActive). -/
inductive Display where
  | loadingView : Display
  | errorView (msg : String) : Display
  | nullView : Display
  | page (programme : String) (semester : String) (qr : Option String)
      (statusActive : Bool) : Display
deriving Repr, DecidableEq

/-- The render function: loading check, then error check, then missing
course, then the page with the QR code rendered only when
`course.LinkStatus` is Active. -/
def render (st : SessionState) (semester : String) (now : DateParts) : Display :=
  if st.loading then .loadingView
  else
    match st.error with
    | some msg => .errorView msg
    | none =>
        match st.course with
        | none => .nullView
        | some c =>
            let active := c.LinkStatus = "Active"
            .page c.Programme semester
              (if active then some (qrValue (some c) semester now st.location) else none)
              active

/-- The token visible to the viewer in a given display state, if any. -/
def displayedToken : Display → Option String
  | .page _ _ qr _ => qr
  | _ => none

/-! ## Live change notifier (CourseLinkPage.jsx lines 70-103) -/

/-- The event name the location-collection callback tests for
(creation of any document of the location collection). -/
def locCreateEvent (dbId collId : String) : String :=
  "databases." ++ dbId ++ ".collections." ++ collId ++ ".documents.*.create"

/-- The event name the course callback tests for (update of the
watched course document). -/
def courseUpdateEvent (dbId collId docId : String) : String :=
  "databases." ++ dbId ++ ".collections." ++ collId ++ ".documents." ++ docId ++ ".update"

/-- A realtime message delivered to the location subscription: the list
of event names and the raw created document carried by the message. -/
structure LocEvent where
  events : List String
  payload : LocationDoc
deriving Repr

/-- A realtime message delivered to the course subscription. -/
structure CourseEvent where
  events : List String
  payload : Course
deriving Repr

/-- The location-subscription callback (lines 93-102): when the message
carries the collection's create event, re-query the store for the
absolute latest sample and, when one exists, install its coordinates;
the raw event payload is never consulted. -/
def onLocationEvent (dbId collId : String) (store : List LocationDoc)
    (ev : LocEvent) (st : SessionState) : SessionState :=
  if (ev.events).contains (locCreateEvent dbId collId) then
    match fetchLatestLocation store with
    | some l => { st with location := ⟨some l.Latitude, some l.Longitude⟩ }
    | none => st
  else st

/-- The course-subscription callback (lines 73-78): when the message
carries the watched document's update event, replace the course state
with the message payload. -/
def onCourseEvent (dbId collId docId : String) (ev : CourseEvent)
    (st : SessionState) : SessionState :=
  if (ev.events).contains (courseUpdateEvent dbId collId docId) then
    { st with course := some ev.payload }
  else st

/-- Appending a newly created location document to the store (the
append-only creation stream of the location collection). -/
def publish (store : List LocationDoc) (d : LocationDoc) : List LocationDoc :=
  store ++ [d]

/-- The realtime message produced by creating document `d`. -/
def mkCreateEvent (dbId collId : String) (d : LocationDoc) : LocEvent :=
  ⟨[locCreateEvent dbId collId], d⟩

/-- Sequential processing of a burst of location publications while the
viewer session is open: each publication appends to the store and its
creation event is delivered to the location callback, one at a time in
arrival order (per the single-threaded event-loop model). -/
def processBurst (dbId collId : String) (store : List LocationDoc)
    (st : SessionState) : List LocationDoc → List LocationDoc × SessionState
  | [] => (store, st)
  | d :: ds =>
      let store1 := publish store d
      let st1 := onLocationEvent dbId collId store1 (mkCreateEvent dbId collId d) st
      processBurst dbId collId store1 st1 ds

/-! ## Effect lifecycle (CourseLinkPage.jsx lines 55-126)

The effect body fires `initializeData()` without awaiting it and
returns the cleanup closure. The two `client.subscribe` calls are
micro-steps of the async body that run when their preceding awaits
resolve, whether or not the cleanup already ran; the cleanup closure
releases whichever subscriptions are assigned at the moment it runs and
clears the clock interval. -/

/-- Resource view of one viewer session: which subscriptions are
currently registered with the realtime client, whether the clock timer
is still scheduled, and whether the effect cleanup has run. -/
structure EffectState where
  courseSubActive : Bool
  locSubActive : Bool
  timerActive : Bool
  cleanedUp : Bool
deriving Repr, DecidableEq

/-- Session resources right after the effect body runs: the timer is
scheduled, no subscription exists yet. -/
def initialEffectState : EffectState :=
  { courseSubActive := false, locSubActive := false, timerActive := true, cleanedUp := false }

/-- The observable micro-steps of the effect lifecycle: the two
subscribe calls of initializeData's continuation, and the cleanup
closure (unmount / navigation away / dependency change). -/
inductive EffectAction where
  | subCourse : EffectAction
  | subLoc : EffectAction
  | cleanup : EffectAction
deriving Repr, DecidableEq

/-- One micro-step. Cleanup calls the unsubscribe closures that are
assigned at that moment and clears the interval; a subscribe step
registers its subscription (the async body is never cancelled, so the
step runs even after cleanup). -/
def effectStep (st : EffectState) : EffectAction → EffectState
  | .subCourse => { st with courseSubActive := true }
  | .subLoc => { st with locSubActive := true }
  | .cleanup =>
      { st with courseSubActive := false, locSubActive := false,
                timerActive := false, cleanedUp := true }

/-- Run a schedule of micro-steps from a starting resource state. -/
def runEffect (st : EffectState) (acts : List EffectAction) : EffectState :=
  acts.foldl effectStep st

/-- Delivery of a course realtime message to the live session: the
callback runs (and can change component state) iff the course
subscription is currently registered. -/
def deliverCourseUpdate (dbId collId docId : String) (eff : EffectState)
    (ev : CourseEvent) (st : SessionState) : SessionState :=
  if eff.courseSubActive then onCourseEvent dbId collId docId ev st else st

/-! ## Location manager (SettingsPage.jsx lines 44-138)

The LocationService module is not part of the sources; its operations
are modelled from the spec: addLocation creates a new document with a
fresh id, updateLocation rewrites the coordinates of the document with
the given id, deleteLocation removes it. The list transitions below are
the component's own setLocations updates. -/

/-- The LocationManager state the claims observe: the locations list
and the id selected for editing (null when the form is in add mode).
Form fields are modelled by their parsed numeric values at submit. -/
structure SettingsState where
  locations : List LocationDoc
  editingLocationId : Option String
deriving Repr, DecidableEq

/-- The success path of handleSubmit with parsed form values `lat`,
`lon`: in edit mode the document with the editing id is rewritten in
place (setLocations maps the updated document over the list); in add
mode a new document (fresh id `newId`, created at `now`) is prepended;
both paths clear the editing id. -/
def handleSubmit (st : SettingsState) (lat lon : ℚ) (newId : String) (now : Nat) :
    SettingsState :=
  match st.editingLocationId with
  | some eid =>
      { st with
        locations := st.locations.map
          (fun l => if l.id = eid then { l with Latitude := lat, Longitude := lon } else l),
        editingLocationId := none }
  | none =>
      { st with
        locations := ⟨newId, now, lat, lon⟩ :: st.locations,
        editingLocationId := none }

/-- The confirmed path of handleDelete: the document with the given id
is removed from the list. -/
def handleDelete (st : SettingsState) (locationId : String) : SettingsState :=
  { st with locations := st.locations.filter (fun l => l.id ≠ locationId) }

/-! ## Helper lemmas -/

/-- Every positional decimal digit character is a digit. -/
theorem digitChar_mod_isDigit (n : Nat) : (Nat.digitChar (n % 10)).isDigit = true := by
  have h : n % 10 < 10 := Nat.mod_lt _ (by omega)
  have hall : ∀ k < 10, (Nat.digitChar k).isDigit = true := by decide
  exact hall _ h

/-- The modelled toISOString always prints the ISO-8601 layout. -/
theorem toISOString_isISO8601 (d : DateParts) : isISO8601 (toISOString d) = true := by
  simp [toISOString, isISO8601, String.toList, List.all, digitChar_mod_isDigit]

/-- A serialized JSON object is never the empty string. -/
theorem serialize_obj_ne_empty (fs : List (String × Json)) :
    Json.serialize (Json.obj fs) ≠ "" := by
  intro h
  have hlen := congrArg String.length h
  simp [Json.serialize, String.length_append] at hlen
  exact absurd hlen.1.1 (by decide)

/-- The descending-order selection fold lands on a member of the list
it scanned (including the seed). -/
theorem foldl_latestStep_mem (ds : List LocationDoc) (d : LocationDoc) :
    ds.foldl latestStep d ∈ d :: ds := by
  induction ds generalizing d with
  | nil => simp
  | cons x xs ih =>
      have h := ih (latestStep d x)
      rcases List.mem_cons.mp h with h1 | h1
      · rw [List.foldl_cons, h1]
        by_cases hc : d.createdAt < x.createdAt <;> simp [latestStep, hc]
      · simp [List.foldl_cons, h1]

/-- The descending-order selection fold dominates the creation time of
the seed and of every scanned element. -/
theorem foldl_latestStep_max (ds : List LocationDoc) (d : LocationDoc) :
    ∀ x ∈ d :: ds, x.createdAt ≤ (ds.foldl latestStep d).createdAt := by
  induction ds generalizing d with
  | nil => simp
  | cons y ys ih =>
      intro x hx
      have hstep : d.createdAt ≤ (latestStep d y).createdAt ∧
          y.createdAt ≤ (latestStep d y).createdAt := by
        by_cases hc : d.createdAt < y.createdAt <;> simp [latestStep, hc] <;> omega
      rcases List.mem_cons.mp hx with h1 | h1
      · subst h1
        calc x.createdAt ≤ (latestStep x y).createdAt := hstep.1
          _ ≤ (ys.foldl latestStep (latestStep x y)).createdAt :=
              ih (latestStep x y) _ (List.mem_cons_self _ _)
      · rcases List.mem_cons.mp h1 with h2 | h2
        · subst h2
          calc x.createdAt ≤ (latestStep d x).createdAt := hstep.2
            _ ≤ (ys.foldl latestStep (latestStep d x)).createdAt :=
                ih (latestStep d x) _ (List.mem_cons_self _ _)
        · exact ih (latestStep d y) x (List.mem_cons_of_mem _ h2)

/-- fetchLatestLocation returns null exactly on the empty store. -/
theorem fetchLatestLocation_none_iff (store : List LocationDoc) :
    fetchLatestLocation store = none ↔ store = [] := by
  cases store <;> simp [fetchLatestLocation]

/-- A returned latest sample is a member of the store. -/
theorem fetchLatestLocation_mem (store : List LocationDoc) (l : LocationDoc)
    (h : fetchLatestLocation store = some l) : l ∈ store := by
  cases store with
  | nil => simp [fetchLatestLocation] at h
  | cons d ds =>
      simp [fetchLatestLocation] at h
      rw [← h]
      exact foldl_latestStep_mem ds d

/-- A returned latest sample dominates every store member's creation
time. -/
theorem fetchLatestLocation_max (store : List LocationDoc) (l : LocationDoc)
    (h : fetchLatestLocation store = some l) :
    ∀ x ∈ store, x.createdAt ≤ l.createdAt := by
  cases store with
  | nil => simp [fetchLatestLocation] at h
  | cons d ds =>
      simp [fetchLatestLocation] at h
      rw [← h]
      exact foldl_latestStep_max ds d

/-- Appending a strictly fresher document makes it the query result. -/
theorem fetchLatestLocation_append_gt (store : List LocationDoc) (d : LocationDoc)
    (h : ∀ x ∈ store, x.createdAt < d.createdAt) :
    fetchLatestLocation (store ++ [d]) = some d := by
  have hne : store ++ [d] ≠ [] := by simp
  cases hfl : fetchLatestLocation (store ++ [d]) with
  | none =>
      exact absurd ((fetchLatestLocation_none_iff _).mp hfl) hne
  | some l =>
      have hmem := fetchLatestLocation_mem _ _ hfl
      have hmax := fetchLatestLocation_max _ _ hfl d (by simp)
      rcases List.mem_append.mp hmem with h1 | h1
      · exact absurd hmax (by have := h l h1; omega)
      · simp at h1
        rw [h1]

/-- An Active course always yields a non-empty qrValue string. -/
theorem qrValue_active_ne_empty (c : Course) (h : c.LinkStatus = "Active")
    (sem : String) (now : DateParts) (loc : LocState) :
    qrValue (some c) sem now loc ≠ "" := by
  simp only [qrValue, qrJson, h, if_pos]
  exact serialize_obj_ne_empty _

/-- The location callback never touches the error, loading, or course
components of the session state. -/
theorem onLocationEvent_preserves (dbId collId : String) (store : List LocationDoc)
    (ev : LocEvent) (st : SessionState) :
    (onLocationEvent dbId collId store ev st).error = st.error ∧
    (onLocationEvent dbId collId store ev st).loading = st.loading ∧
    (onLocationEvent dbId collId store ev st).course = st.course := by
  unfold onLocationEvent
  split
  · cases fetchLatestLocation store <;> simp
  · simp

/-- A non-loading state with an error message renders the terminal
error card with that message. -/
theorem render_error (st : SessionState) (sem : String) (now : DateParts)
    (m : String) (hl : st.loading = false) (he : st.error = some m) :
    render st sem now = .errorView m := by
  simp [render, hl, he]

/-! ## Claims -/

/-- C1: for every course whose LinkStatus is not the string Active, the
qrValue payload is the empty string, and in every component state
holding that course (loading, error, or rendered page) no token is
displayed. -/
theorem C1_inactive_no_token (c : Course) (h : c.LinkStatus ≠ "Active")
    (sem : String) (now : DateParts) (loc : LocState) (st : SessionState)
    (hc : st.course = some c) :
    qrValue (some c) sem now loc = "" ∧
    displayedToken (render st sem now) = none := by
  refine ⟨by simp [qrValue, qrJson, h], ?_⟩
  by_cases hl : st.loading
  · simp [render, hl, displayedToken]
  · cases he : st.error with
    | some m => simp [render, hl, he, displayedToken]
    | none => simp [render, hl, he, hc, displayedToken, h]

/-- Witness for C1 at a concrete Inactive course and viewer state. -/
theorem C1_inactive_no_token_witness :
    qrValue (some ⟨"c1", "bca", "Inactive"⟩) "3" ⟨2025, 10, 12, 1, 2, 3, 4⟩
        ⟨some 1, some 2⟩ = "" ∧
    displayedToken (render
      { course := some ⟨"c1", "bca", "Inactive"⟩, location := ⟨some 1, some 2⟩,
        loading := false, error := none } "3" ⟨2025, 10, 12, 1, 2, 3, 4⟩) = none :=
  C1_inactive_no_token ⟨"c1", "bca", "Inactive"⟩ (by decide) "3"
    ⟨2025, 10, 12, 1, 2, 3, 4⟩ ⟨some 1, some 2⟩
    { course := some ⟨"c1", "bca", "Inactive"⟩, location := ⟨some 1, some 2⟩,
      loading := false, error := none } rfl

/-- C5: fetchLatestLocation returns none exactly when no sample was
ever published, and any returned sample is a published sample whose
creation time dominates every published sample's creation time. -/
theorem C5_latest_location_query (store : List LocationDoc) :
    (fetchLatestLocation store = none ↔ store = []) ∧
    (∀ l, fetchLatestLocation store = some l →
        l ∈ store ∧ ∀ x ∈ store, x.createdAt ≤ l.createdAt) :=
  ⟨fetchLatestLocation_none_iff store,
   fun l h => ⟨fetchLatestLocation_mem store l h, fetchLatestLocation_max store l h⟩⟩

/-- Witness for C5 on a concrete three-sample store. -/
theorem C5_latest_location_query_witness :
    fetchLatestLocation
        [⟨"a", 1, 0, 0⟩, ⟨"b", 5, 2, 3⟩, ⟨"c", 3, 4, 4⟩] = some ⟨"b", 5, 2, 3⟩ ∧
    (⟨"b", 5, 2, 3⟩ : LocationDoc) ∈
        ([⟨"a", 1, 0, 0⟩, ⟨"b", 5, 2, 3⟩, ⟨"c", 3, 4, 4⟩] : List LocationDoc) ∧
    ∀ x ∈ ([⟨"a", 1, 0, 0⟩, ⟨"b", 5, 2, 3⟩, ⟨"c", 3, 4, 4⟩] : List LocationDoc),
        x.createdAt ≤ (⟨"b", 5, 2, 3⟩ : LocationDoc).createdAt :=
  have h : fetchLatestLocation
      [⟨"a", 1, 0, 0⟩, ⟨"b", 5, 2, 3⟩, ⟨"c", 3, 4, 4⟩] = some ⟨"b", 5, 2, 3⟩ := by
    decide
  ⟨h,
   ((C5_latest_location_query _).2 _ h).1,
   ((C5_latest_location_query _).2 _ h).2⟩

/-- C3: the location callback ignores the raw event payload (its result
is payload-independent), and sequentially processing a burst of
publications with fresh creation times leaves the viewer's location
equal to the coordinates of the last published sample. -/
theorem C3_requery_last_wins (dbId collId : String) (store : List LocationDoc)
    (st : SessionState) (burst : List LocationDoc) (last : LocationDoc)
    (hlast : burst.getLast? = some last)
    (hmono : burst.Pairwise (fun a b => a.createdAt < b.createdAt))
    (hstore : ∀ x ∈ store, ∀ b ∈ burst, x.createdAt < b.createdAt) :
    (∀ (evs : List String) (p q : LocationDoc) (s : SessionState),
        onLocationEvent dbId collId store ⟨evs, p⟩ s =
          onLocationEvent dbId collId store ⟨evs, q⟩ s) ∧
    (processBurst dbId collId store st burst).2.location =
      ⟨some last.Latitude, some last.Longitude⟩ := by
  refine ⟨fun evs p q s => rfl, ?_⟩
  induction burst generalizing store st with
  | nil => simp at hlast
  | cons d ds ih =>
      have hfresh : ∀ x ∈ store, x.createdAt < d.createdAt :=
        fun x hx => hstore x hx d (List.mem_cons_self _ _)
      have hq : fetchLatestLocation (store ++ [d]) = some d :=
        fetchLatestLocation_append_gt _ _ hfresh
      have hst1 : onLocationEvent dbId collId (store ++ [d])
          (mkCreateEvent dbId collId d) st =
          { st with location := ⟨some d.Latitude, some d.Longitude⟩ } := by
        simp [onLocationEvent, mkCreateEvent, hq]
      cases ds with
      | nil =>
          simp at hlast
          subst hlast
          simp [processBurst, publish, hst1]
      | cons e es =>
          rw [List.getLast?_cons_cons] at hlast
          have hpw := List.pairwise_cons.mp hmono
          have hstore1 : ∀ x ∈ store ++ [d], ∀ b ∈ e :: es,
              x.createdAt < b.createdAt := by
            intro x hx b hb
            rcases List.mem_append.mp hx with h1 | h1
            · exact hstore x h1 b (List.mem_cons_of_mem _ hb)
            · simp at h1
              subst h1
              exact hpw.1 b hb
          have := ih (store ++ [d])
            { st with location := ⟨some d.Latitude, some d.Longitude⟩ }
            hlast hpw.2 hstore1
          simpa [processBurst, publish, hst1] using this

/-- Witness for C3 on a concrete store and two-publication burst. -/
theorem C3_requery_last_wins_witness :
    (∀ (evs : List String) (p q : LocationDoc) (s : SessionState),
        onLocationEvent ("") ("") [⟨"s", 5, 0, 0⟩] ⟨evs, p⟩ s =
          onLocationEvent ("") ("") [⟨"s", 5, 0, 0⟩] ⟨evs, q⟩ s) ∧
    (processBurst ("") ("") [⟨"s", 5, 0, 0⟩] initialState
        [⟨"p", 10, 1, 2⟩, ⟨"q", 20, 3, 4⟩]).2.location =
      ⟨some (3 : ℚ), some (4 : ℚ)⟩ :=
  C3_requery_last_wins ("") ("") [⟨"s", 5, 0, 0⟩] initialState
    [⟨"p", 10, 1, 2⟩, ⟨"q", 20, 3, 4⟩] ⟨"q", 20, 3, 4⟩
    (by decide) (by decide) (by decide)

/-- C2 fails as stated: with the link Active, a present location sample
whose latitude is 0, and a non-numeric semester parameter, the payload
is generated but its location field is JSON null (not the sample's
coordinate pair) and its semester field is JSON null (not an integer). -/
theorem C2_counterexample :
    (qrJson (some ⟨"c1", "bca", "Active"⟩) "x" ⟨2025, 1, 2, 3, 4, 5, 6⟩
        ⟨some 0, some 5⟩).bind (fun j => j.getField ("location")) = some Json.null ∧
    (qrJson (some ⟨"c1", "bca", "Active"⟩) "x" ⟨2025, 1, 2, 3, 4, 5, 6⟩
        ⟨some 0, some 5⟩).bind (fun j => j.getField ("semester")) = some Json.null ∧
    (∀ q : ℚ, Json.null ≠ Json.num q) ∧
    (∀ fs : List (String × Json), Json.null ≠ Json.obj fs) :=
  ⟨rfl, rfl, fun _ h => Json.noConfusion h, fun _ h => Json.noConfusion h⟩

/-- C2 (amended): for every Active course, when the semester route
parameter parses to an integer and the current location coordinates are
both present and non-zero, the payload is exactly the serialization of
a JSON object with the four keys courseId, semester (that integer),
dateTime (the ISO-8601 rendering of the generation instant), and
location holding the sample's latitude and longitude. -/
theorem C2_active_payload (c : Course) (h : c.LinkStatus = "Active")
    (sem : String) (k : Int) (hk : jsParseInt sem = some k)
    (a b : ℚ) (ha : a ≠ 0) (hb : b ≠ 0) (now : DateParts) :
    qrValue (some c) sem now ⟨some a, some b⟩ =
      Json.serialize (Json.obj
        [("courseId", Json.str c.id),
         ("semester", Json.num (k : ℚ)),
         ("dateTime", Json.str (toISOString now)),
         ("location", Json.obj
            [("latitude", Json.num a), ("longitude", Json.num b)])]) ∧
    isISO8601 (toISOString now) = true := by
  refine ⟨?_, toISOString_isISO8601 now⟩
  simp [qrValue, qrJson, h, hk, truthy, ha, hb]

/-- Witness for C2 (amended) at a concrete Active course, numeric
semester, and non-zero coordinates. -/
theorem C2_active_payload_witness :
    qrValue (some ⟨"c1", "bca", "Active"⟩) "3" ⟨2025, 10, 12, 1, 2, 3, 4⟩
        ⟨some 26, some 91⟩ =
      Json.serialize (Json.obj
        [("courseId", Json.str ("c1")),
         ("semester", Json.num ((3 : Int) : ℚ)),
         ("dateTime", Json.str (toISOString ⟨2025, 10, 12, 1, 2, 3, 4⟩)),
         ("location", Json.obj
            [("latitude", Json.num 26), ("longitude", Json.num 91)])]) ∧
    isISO8601 (toISOString ⟨2025, 10, 12, 1, 2, 3, 4⟩) = true :=
  C2_active_payload ⟨"c1", "bca", "Active"⟩ rfl ("3") 3 (by decide)
    26 91 (by norm_num) (by norm_num) ⟨2025, 10, 12, 1, 2, 3, 4⟩

/-- C9: for every Active course, whenever either coordinate of the
location state is absent or 0 (JS-falsy), the payload's location field
is JSON null while the payload string itself is non-empty. -/
theorem C9_falsy_coord_location_null (c : Course) (h : c.LinkStatus = "Active")
    (sem : String) (now : DateParts) (loc : LocState)
    (hz : loc.latitude = none ∨ loc.latitude = some 0 ∨
          loc.longitude = none ∨ loc.longitude = some 0) :
    (qrJson (some c) sem now loc).bind (fun j => j.getField ("location")) =
      some Json.null ∧
    qrValue (some c) sem now loc ≠ "" := by
  refine ⟨?_, qrValue_active_ne_empty c h sem now loc⟩
  have hfalse : (truthy loc.latitude && truthy loc.longitude) = false := by
    rcases hz with h1 | h1 | h1 | h1 <;> simp [truthy, h1]
  simp [qrJson, h, hfalse, Json.getField]

/-- Witness for C9 at a concrete Active course whose current sample has
latitude 0. -/
theorem C9_falsy_coord_location_null_witness :
    (qrJson (some ⟨"c1", "bca", "Active"⟩) "3" ⟨2025, 10, 12, 1, 2, 3, 4⟩
        ⟨some 0, some 91⟩).bind (fun j => j.getField ("location")) =
      some Json.null ∧
    qrValue (some ⟨"c1", "bca", "Active"⟩) "3" ⟨2025, 10, 12, 1, 2, 3, 4⟩
        ⟨some 0, some 91⟩ ≠ "" :=
  C9_falsy_coord_location_null ⟨"c1", "bca", "Active"⟩ rfl ("3")
    ⟨2025, 10, 12, 1, 2, 3, 4⟩ ⟨some 0, some 91⟩ (Or.inr (Or.inl rfl))

/-- C10: for every Active course whose semester route parameter has no
integer parse (JS NaN), the page still renders the token, the payload is
non-empty, its semester field serializes as JSON null, and no error
state is entered. -/
theorem C10_nan_semester (c : Course) (h : c.LinkStatus = "Active")
    (sem : String) (hn : jsParseInt sem = none) (now : DateParts)
    (st : SessionState) (hc : st.course = some c) (hl : st.loading = false)
    (he : st.error = none) :
    render st sem now =
      .page c.Programme sem (some (qrValue (some c) sem now st.location)) true ∧
    qrValue (some c) sem now st.location ≠ "" ∧
    (qrJson (some c) sem now st.location).bind (fun j => j.getField ("semester")) =
      some Json.null := by
  refine ⟨?_, qrValue_active_ne_empty c h sem now st.location, ?_⟩
  · simp [render, hl, he, hc, h]
  · simp [qrJson, h, hn, Json.getField]

/-- Witness for C10 at a concrete Active course and the non-numeric
semester parameter x. -/
theorem C10_nan_semester_witness :
    render
      { course := some ⟨"c1", "bca", "Active"⟩, location := ⟨some 26, some 91⟩,
        loading := false, error := none } "x" ⟨2025, 10, 12, 1, 2, 3, 4⟩ =
      .page ("bca") ("x")
        (some (qrValue (some ⟨"c1", "bca", "Active"⟩) "x" ⟨2025, 10, 12, 1, 2, 3, 4⟩
          ⟨some 26, some 91⟩)) true ∧
    qrValue (some ⟨"c1", "bca", "Active"⟩) "x" ⟨2025, 10, 12, 1, 2, 3, 4⟩
        ⟨some 26, some 91⟩ ≠ "" ∧
    (qrJson (some ⟨"c1", "bca", "Active"⟩) "x" ⟨2025, 10, 12, 1, 2, 3, 4⟩
        ⟨some 26, some 91⟩).bind (fun j => j.getField ("semester")) =
      some Json.null :=
  C10_nan_semester ⟨"c1", "bca", "Active"⟩ rfl ("x") (by decide)
    ⟨2025, 10, 12, 1, 2, 3, 4⟩
    { course := some ⟨"c1", "bca", "Active"⟩, location := ⟨some 26, some 91⟩,
      loading := false, error := none } rfl rfl rfl

/-- C6: when no course's Programme matches the decoded programme
parameter case-insensitively, the session reaches the terminal error
display with the not-found message, shows no token, and stays on the
error display under any later location event. -/
theorem C6_not_found_error (courses : List Course) (dp : String)
    (h : ∀ c ∈ courses, jsToLower c.Programme ≠ jsToLower dp)
    (latest : Option LocationDoc) (sem : String) (now : DateParts)
    (st : SessionState)
    (hst : st = initializeData (.ok courses latest) dp initialState) :
    render st sem now = .errorView notFoundMessage ∧
    displayedToken (render st sem now) = none ∧
    (∀ dbId collId store ev,
        render (onLocationEvent dbId collId store ev st) sem now =
          .errorView notFoundMessage) := by
  have hfind : findCourse courses dp = none := by
    apply List.find?_eq_none.mpr
    intro c hc
    simp [h c hc]
  have herr : st.error = some notFoundMessage := by
    subst hst
    cases latest <;> simp [initializeData, hfind, initialState]
  have hload : st.loading = false := by
    subst hst
    cases latest <;> simp [initializeData, hfind, initialState]
  refine ⟨render_error st sem now _ hload herr, ?_, ?_⟩
  · rw [render_error st sem now _ hload herr]
    rfl
  · intro dbId collId store ev
    have hp := onLocationEvent_preserves dbId collId store ev st
    exact render_error _ sem now _ (hp.2.1.trans hload) (hp.1.trans herr)

/-- Witness for C6 on a concrete course list with no match for the
programme parameter zz. -/
theorem C6_not_found_error_witness :
    render (initializeData (.ok [⟨"c1", "BCA", "Active"⟩] none) "zz" initialState)
        "1" ⟨2025, 10, 12, 1, 2, 3, 4⟩ = .errorView notFoundMessage ∧
    displayedToken (render
        (initializeData (.ok [⟨"c1", "BCA", "Active"⟩] none) "zz" initialState)
        "1" ⟨2025, 10, 12, 1, 2, 3, 4⟩) = none ∧
    (∀ dbId collId store ev,
        render (onLocationEvent dbId collId store ev
            (initializeData (.ok [⟨"c1", "BCA", "Active"⟩] none) "zz" initialState))
          "1" ⟨2025, 10, 12, 1, 2, 3, 4⟩ = .errorView notFoundMessage) :=
  C6_not_found_error [⟨"c1", "BCA", "Active"⟩] "zz" (by decide) none
    "1" ⟨2025, 10, 12, 1, 2, 3, 4⟩ _ rfl

/-- C7 fails as stated: the fetch-failure display and the not-found
display carry different human-readable messages, so the two failure
causes are distinguished to the viewer. -/
theorem C7_counterexample :
    render (initializeData .failure ("zz") initialState) "1"
        ⟨2025, 10, 12, 1, 2, 3, 4⟩ = .errorView fetchFailedMessage ∧
    render (initializeData (.ok [⟨"c1", "BCA", "Active"⟩] none) "zz" initialState)
        "1" ⟨2025, 10, 12, 1, 2, 3, 4⟩ = .errorView notFoundMessage ∧
    Display.errorView fetchFailedMessage ≠ Display.errorView notFoundMessage := by
  decide

/-- C7 (amended): a network/service failure during the initial load
reaches the same terminal error display state (the error card, with no
token) as a course-not-found, but the two causes carry different
messages and are therefore distinguishable by the message text. -/
theorem C7_same_error_display (dp sem : String) (now : DateParts)
    (courses : List Course) (latest : Option LocationDoc)
    (h : ∀ c ∈ courses, jsToLower c.Programme ≠ jsToLower dp) :
    render (initializeData .failure dp initialState) sem now =
      .errorView fetchFailedMessage ∧
    displayedToken (render (initializeData .failure dp initialState) sem now) =
      none ∧
    render (initializeData (.ok courses latest) dp initialState) sem now =
      .errorView notFoundMessage ∧
    fetchFailedMessage ≠ notFoundMessage := by
  have hfind : findCourse courses dp = none := by
    apply List.find?_eq_none.mpr
    intro c hc
    simp [h c hc]
  have h1 : render (initializeData .failure dp initialState) sem now =
      .errorView fetchFailedMessage := by
    apply render_error <;> simp [initializeData]
  have h3 : render (initializeData (.ok courses latest) dp initialState) sem now =
      .errorView notFoundMessage := by
    apply render_error <;> cases latest <;> simp [initializeData, hfind, initialState]
  refine ⟨h1, ?_, h3, by decide⟩
  rw [h1]
  rfl

/-- Witness for C7 (amended) at the concrete programme parameter zz. -/
theorem C7_same_error_display_witness :
    render (initializeData .failure ("zz") initialState) "1"
        ⟨2025, 10, 12, 1, 2, 3, 4⟩ = .errorView fetchFailedMessage ∧
    displayedToken (render (initializeData .failure ("zz") initialState) "1"
        ⟨2025, 10, 12, 1, 2, 3, 4⟩) = none ∧
    render (initializeData (.ok [⟨"c1", "BCA", "Active"⟩] none) "zz" initialState)
        "1" ⟨2025, 10, 12, 1, 2, 3, 4⟩ = .errorView notFoundMessage ∧
    fetchFailedMessage ≠ notFoundMessage :=
  C7_same_error_display ("zz") ("1") ⟨2025, 10, 12, 1, 2, 3, 4⟩
    [⟨"c1", "BCA", "Active"⟩] none (by decide)

/-- C4 fails on one exit path: teardown after initialization does
release both subscriptions and the timer (first three conjuncts), but
when the cleanup closure runs while initializeData is still awaiting
its first fetch, the continuation still registers both subscriptions
afterwards, they are never released, and a later course-update event
still fires the callback and changes the session state (remaining
conjuncts). -/
theorem C4_teardown_leak :
    (runEffect initialEffectState [.subCourse, .subLoc, .cleanup]).courseSubActive
        = false ∧
    (runEffect initialEffectState [.subCourse, .subLoc, .cleanup]).locSubActive
        = false ∧
    (runEffect initialEffectState [.subCourse, .subLoc, .cleanup]).timerActive
        = false ∧
    (runEffect initialEffectState [.cleanup, .subCourse, .subLoc]).cleanedUp
        = true ∧
    (runEffect initialEffectState [.cleanup, .subCourse, .subLoc]).courseSubActive
        = true ∧
    (runEffect initialEffectState [.cleanup, .subCourse, .subLoc]).locSubActive
        = true ∧
    deliverCourseUpdate ("") ("") ("c1")
        (runEffect initialEffectState [.cleanup, .subCourse, .subLoc])
        ⟨[courseUpdateEvent ("") ("") ("c1")], ⟨"c1", "bca", "Inactive"⟩⟩
        { course := some ⟨"c1", "bca", "Active"⟩, location := initialLocState,
          loading := false, error := none } ≠
      { course := some ⟨"c1", "bca", "Active"⟩, location := initialLocState,
        loading := false, error := none } := by
  decide

/-- C8 fails as stated: submitting the form with a location selected
for editing rewrites that sample's coordinates in place (same list
length, the original sample gone, no new sample), and the delete
handler removes a sample; both are normal operations of the settings
page. -/
theorem C8_counterexample :
    (handleSubmit ⟨[⟨"a", 1, 1, 2⟩], some "a"⟩ 5 6 "new" 9).locations
        = [⟨"a", 1, 5, 6⟩] ∧
    (⟨"a", 1, 1, 2⟩ : LocationDoc) ∉
        (handleSubmit ⟨[⟨"a", 1, 1, 2⟩], some "a"⟩ 5 6 "new" 9).locations ∧
    (handleSubmit ⟨[⟨"a", 1, 1, 2⟩], some "a"⟩ 5 6 "new" 9).locations.length
        = ([⟨"a", 1, 1, 2⟩] : List LocationDoc).length ∧
    (handleDelete ⟨[⟨"a", 1, 1, 2⟩], none⟩ "a").locations = [] := by
  decide

/-- C8 (amended): publishing a location in add mode (no sample selected
for editing) always creates a new sample and preserves every existing
sample; the settings page however also offers edit and delete actions
that overwrite or remove existing samples in normal operation. -/
theorem C8_publish_appends (st : SettingsState) (h : st.editingLocationId = none)
    (lat lon : ℚ) (newId : String) (now : Nat) :
    (handleSubmit st lat lon newId now).locations =
      ⟨newId, now, lat, lon⟩ :: st.locations ∧
    ∀ l ∈ st.locations, l ∈ (handleSubmit st lat lon newId now).locations := by
  constructor
  · simp [handleSubmit, h]
  · intro l hl
    simp [handleSubmit, h]
    exact Or.inr hl

/-- Witness for C8 (amended): an add-mode submit on a one-sample list. -/
theorem C8_publish_appends_witness :
    (handleSubmit ⟨[⟨"a", 1, 1, 2⟩], none⟩ 5 6 "new" 9).locations =
      [⟨"new", 9, 5, 6⟩, ⟨"a", 1, 1, 2⟩] ∧
    ∀ l ∈ ([⟨"a", 1, 1, 2⟩] : List LocationDoc),
        l ∈ (handleSubmit ⟨[⟨"a", 1, 1, 2⟩], none⟩ 5 6 "new" 9).locations :=
  C8_publish_appends ⟨[⟨"a", 1, 1, 2⟩], none⟩ rfl 5 6 "new" 9

end Webs
